import Mathlib

/-!
Shallow embedding of the two scripts of the repository
(`skills/pr-review-skill/scripts/summarize-pr.py` and
`skills/pr-review-skill/scripts/prepare-worktree.py`) and proofs about them.

Modelling conventions:
  - Python strings are Lean `String`; where Python slices, splits or
    compares strings, the underlying character list `String.data` is used,
    which matches Python code-point semantics.
  - The GraphQL API is modelled per collection as the sequence of pages it
    serves: the opaque `endCursor` of page i leads to page i+1, so cursors
    are represented by list position.
  - Exceptions are modelled with `Except` / `Option`; text printed to
    standard error is collected in an explicit list of warning strings.
-/

namespace SummarizePR

/-- One page of a paginated GraphQL collection: the `nodes` field together
with `pageInfo.hasNextPage`. The opaque `endCursor` is represented by the
position of the page in the sequence of pages the API serves. -/
structure Page (α : Type) where
  nodes : List α
  hasNextPage : Bool
deriving DecidableEq

/-- A node of the `files(first: 100)` connection. -/
structure FileNode where
  path : String
  additions : Nat
  deletions : Nat
deriving DecidableEq

/-- A node of the `comments(first: 100)` connection (a general PR comment). -/
structure CommentNode where
  id : String
  author : String
  body : String
  createdAt : String
deriving DecidableEq

/-- A node of the `reviews(first: 100)` connection. -/
structure ReviewNode where
  id : String
  author : String
  state : String
  body : String
  submittedAt : String
deriving DecidableEq

/-- A node of the nested `comments(first: 100)` connection of a review
thread. -/
structure ThreadComment where
  id : String
  databaseId : Nat
  author : String
  body : String
  diffHunk : String
  path : String
  line : Option Nat
  createdAt : String
deriving DecidableEq

/-- A node of the `reviewThreads(first: 100)` connection. The nested
comments connection keeps its page info, since the script inspects its
`hasNextPage` flag. -/
structure ReviewThread where
  id : String
  isResolved : Bool
  isOutdated : Bool
  resolvedBy : Option String
  comments : Page ThreadComment
deriving DecidableEq

/-- The pages the API serves for the whole query set: for each of the four
paginated collections, the first page (returned by the initial query) and
the pages reachable from it by advancing that collection's cursor, plus
the scalar PR fields. -/
structure APIResponse where
  title : String
  number : Nat
  url : String
  authorLogin : String
  baseRefName : String
  headRefName : String
  state : String
  additions : Nat
  deletions : Nat
  changedFiles : Nat
  body : String
  files : Page FileNode
  filesRest : List (Page FileNode)
  comments : Page CommentNode
  commentsRest : List (Page CommentNode)
  reviews : Page ReviewNode
  reviewsRest : List (Page ReviewNode)
  reviewThreads : Page ReviewThread
  reviewThreadsRest : List (Page ReviewThread)
deriving DecidableEq

/-- The fully accumulated PR data, i.e. the `pr_data` dict of
`get_pr_data` after each `nodes` field has been replaced by the
accumulated list. -/
structure PullRequestSummary where
  title : String
  number : Nat
  url : String
  authorLogin : String
  baseRefName : String
  headRefName : String
  state : String
  additions : Nat
  deletions : Nat
  changedFiles : Nat
  body : String
  files : List FileNode
  comments : List CommentNode
  reviews : List ReviewNode
  reviewThreads : List ReviewThread
deriving DecidableEq

/-- The pagination loop of `get_pr_data` for one collection: starting from
the current page, while `pageInfo.hasNextPage` is true fetch the next page
and append its nodes. `rest` is the list of pages the API still has to
serve for this collection. -/
def paginateLoop {α : Type} : Page α → List (Page α) → List α
  | cur, [] => cur.nodes
  | cur, next :: rest =>
    if cur.hasNextPage then cur.nodes ++ paginateLoop next rest else cur.nodes

/-- A page sequence is well formed when every page except the last reports
a further page and the last one does not: these are exactly the pages the
API reports for the collection. -/
def chainOk {α : Type} : Page α → List (Page α) → Bool
  | cur, [] => !cur.hasNextPage
  | cur, next :: rest => cur.hasNextPage && chainOk next rest

/-- Embedding of `paginate_comments`: returns the accumulated comment
nodes of one review thread together with the warnings printed to standard
error. The function never fetches further pages; it only warns when the
nested connection reports one. -/
def paginate_comments (initial : Page ThreadComment) : List ThreadComment × List String :=
  (initial.nodes,
    if initial.hasNextPage then
      ["Warning: Thread has >100 comments, some may be truncated"]
    else [])

/-- Embedding of `get_pr_data`: the scalar fields of the initial response
together with each collection accumulated by its pagination loop, paired
with the warnings printed to standard error during the fetch. The body of
`get_pr_data` contains no print call and never invokes
`paginate_comments`, so the warning list is empty. -/
def get_pr_data (api : APIResponse) : PullRequestSummary × List String :=
  ({ title := api.title
     number := api.number
     url := api.url
     authorLogin := api.authorLogin
     baseRefName := api.baseRefName
     headRefName := api.headRefName
     state := api.state
     additions := api.additions
     deletions := api.deletions
     changedFiles := api.changedFiles
     body := api.body
     files := paginateLoop api.files api.filesRest
     comments := paginateLoop api.comments api.commentsRest
     reviews := paginateLoop api.reviews api.reviewsRest
     reviewThreads := paginateLoop api.reviewThreads api.reviewThreadsRest }, [])

/-- The record built by `extract_unresolved_threads` for one unresolved
thread. -/
structure UnresolvedThreadView where
  threadId : String
  isResolved : Bool
  isOutdated : Bool
  author : String
  line : Option Nat
  path : String
  preview : String
  commentCount : Nat
  allComments : List ThreadComment
deriving DecidableEq

/-- Embedding of the preview computation
`first_comment["body"].split("\n")[0][:120]`: the first element of a
Python split on newline is the longest newline-free prefix, and the slice
keeps at most 120 characters. -/
def firstLinePreview (body : String) : String :=
  ⟨(body.data.takeWhile (fun c => c ≠ '\n')).take 120⟩

/-- The record appended by `extract_unresolved_threads` for an unresolved
thread `t` whose opening comment is `c`. -/
def mkView (t : ReviewThread) (c : ThreadComment) : UnresolvedThreadView :=
  { threadId := t.id
    isResolved := t.isResolved
    isOutdated := t.isOutdated
    author := c.author
    line := c.line
    path := c.path
    preview := firstLinePreview c.body
    commentCount := t.comments.nodes.length
    allComments := t.comments.nodes }

/-- Embedding of `extract_unresolved_threads`: walk the threads in order,
keep the unresolved ones, and build the view from the opening comment
(`thread["comments"]["nodes"][0]`). Indexing an empty Python list raises,
which is modelled by `none`. -/
def extract_unresolved_threads : List ReviewThread → Option (List UnresolvedThreadView)
  | [] => some []
  | t :: rest =>
    if t.isResolved then extract_unresolved_threads rest
    else
      match t.comments.nodes with
      | [] => none
      | c :: _ =>
        match extract_unresolved_threads rest with
        | none => none
        | some l => some (mkView t c :: l)

/-- The logical markdown document structure produced through the SnakeMD
calls of `generate_markdown_summary`. Inline bold/code formatting is out
of scope; a paragraph carries its text pieces concatenated. -/
inductive Block where
  | heading (level : Nat) (text : String)
  | para (text : String)
  | ulist (items : List String)
  | raw (text : String)
  | code (lang : String) (text : String)
  | rule
deriving DecidableEq

/-- The kind tag of a timeline item: the `type` key of the dict, together
with the `state` key that only review items carry. -/
inductive ItemKind where
  | comment
  | review (state : String)
deriving DecidableEq

/-- One entry of `all_timeline_items`. -/
structure TimelineItem where
  kind : ItemKind
  timestamp : String
  author : String
  body : String
deriving DecidableEq

/-- The timeline entry built from a general comment. -/
def commentItem (c : CommentNode) : TimelineItem :=
  { kind := ItemKind.comment
    timestamp := c.createdAt
    author := c.author
    body := c.body }

/-- The timeline entry built from a review. -/
def reviewItem (r : ReviewNode) : TimelineItem :=
  { kind := ItemKind.review r.state
    timestamp := r.submittedAt
    author := r.author
    body := r.body }

/-- `all_timeline_items` before sorting: all general comments, then the
reviews whose `body` is truthy (present and nonempty). -/
def timelineItems (pr : PullRequestSummary) : List TimelineItem :=
  pr.comments.map commentItem ++
    (pr.reviews.filter (fun r => !(r.body == ""))).map reviewItem

/-- The Python comparison of two ISO-8601 timestamp strings: code-point
lexicographic order on the character lists. -/
def tsLe (a b : String) : Bool :=
  decide (a.data ≤ b.data)

/-- `all_timeline_items.sort(key=lambda x: x["timestamp"])`: a stable
ascending sort on the timestamp key. -/
def sortedTimeline (pr : PullRequestSummary) : List TimelineItem :=
  (timelineItems pr).mergeSort (fun a b => tsLe a.timestamp b.timestamp)

/-- The state-to-label dict lookup with the raw state as default. -/
def stateLabel (state : String) : String :=
  if state = "APPROVED" then "✅ APPROVED"
  else if state = "CHANGES_REQUESTED" then "🔴 CHANGES REQUESTED"
  else if state = "COMMENTED" then "💬 COMMENTED"
  else if state = "DISMISSED" then "❌ DISMISSED"
  else if state = "PENDING" then "⏳ PENDING"
  else state

/-- The blocks emitted for one timeline item: the author/timestamp header
(with the state label for reviews), the raw body, and a horizontal
rule. -/
def renderTimelineItem (it : TimelineItem) : List Block :=
  match it.kind with
  | ItemKind.comment =>
    [Block.para ("@" ++ it.author ++ " (" ++ it.timestamp ++ "):"),
     Block.raw it.body, Block.rule]
  | ItemKind.review s =>
    [Block.para ("@" ++ it.author ++ " (" ++ it.timestamp ++ ") - " ++ stateLabel s ++ ":"),
     Block.raw it.body, Block.rule]

/-- The header of the document: title heading and metadata paragraphs. -/
def headerBlocks (pr : PullRequestSummary) : List Block :=
  [Block.heading 1 ("PR #" ++ toString pr.number ++ ": " ++ pr.title),
   Block.para ("URL: " ++ pr.url),
   Block.para ("Author: @" ++ pr.authorLogin),
   Block.para ("Status: " ++ pr.state),
   Block.para ("Branch: " ++ pr.headRefName ++ " → " ++ pr.baseRefName)]

/-- The Summary section with the bulleted stat list. -/
def summaryBlocks (pr : PullRequestSummary)
    (unresolved : List UnresolvedThreadView) : List Block :=
  [Block.heading 2 "Summary",
   Block.ulist
     ["Files changed: " ++ toString pr.changedFiles,
      "Additions: +" ++ toString pr.additions,
      "Deletions: -" ++ toString pr.deletions,
      "General comments: " ++ toString pr.comments.length,
      "Unresolved review comments: " ++ toString unresolved.length]]

/-- The Description section, emitted only when the PR body is truthy. -/
def descriptionBlocks (pr : PullRequestSummary) : List Block :=
  if pr.body == "" then []
  else [Block.heading 2 "Description", Block.raw pr.body]

/-- The bullet text of one changed file. -/
def fileEntry (f : FileNode) : String :=
  f.path ++ " (+" ++ toString f.additions ++ " -" ++ toString f.deletions ++ ")"

/-- The Files Changed section. -/
def filesBlocks (pr : PullRequestSummary) : List Block :=
  Block.heading 2 "Files Changed" ::
    (if pr.files.isEmpty then [Block.para "*No file changes found*"]
     else [Block.ulist (pr.files.map fileEntry)])

/-- The Discussion and Reviews section: emitted only when the merged
timeline is nonempty. -/
def discussionBlocks (items : List TimelineItem) : List Block :=
  if items.isEmpty then []
  else Block.heading 2 "Discussion & Reviews" :: items.flatMap renderTimelineItem

/-- The suffix appended to the location line when the `line` field is
truthy (a nonzero number). -/
def lineSuffix : Option Nat → String
  | some n => if n ≠ 0 then " (line " ++ toString n ++ ")" else ""
  | none => ""

/-- The blocks emitted for the comment at position `idx` of an unresolved
thread: the code-context diff block appears only on the first comment and
only when its `diffHunk` is truthy. -/
def threadCommentBlocks (idx : Nat) (c : ThreadComment) : List Block :=
  Block.para ("@" ++ c.author ++ " (" ++ c.createdAt ++ "):") ::
    ((if idx = 0 && !(c.diffHunk == "") then
        [Block.para "Code context:", Block.code "diff" c.diffHunk]
      else []) ++ [Block.raw c.body, Block.rule])

/-- The blocks emitted for the unresolved thread numbered `i`. -/
def unresolvedThreadBlocks (i : Nat) (t : UnresolvedThreadView) : List Block :=
  Block.heading 3 (toString i ++ ". Comment by @" ++ t.author) ::
    ((if !(t.path == "") then
        [Block.para ("Location: " ++ t.path ++ lineSuffix t.line)]
      else []) ++
     (Block.para ("Status: " ++ if t.isOutdated then "Outdated" else "Current") ::
      t.allComments.enum.flatMap (fun p => threadCommentBlocks p.1 p.2)))

/-- The Unresolved Review Comments section. -/
def unresolvedBlocks (unresolved : List UnresolvedThreadView) : List Block :=
  Block.heading 2 "Unresolved Review Comments" ::
    (if unresolved.isEmpty then [Block.para "*No unresolved comments*"]
     else (List.enumFrom 1 unresolved).flatMap
       (fun p => unresolvedThreadBlocks p.1 p.2))

/-- Embedding of `generate_markdown_summary` as the sequence of blocks
added to the SnakeMD document. -/
def generate_markdown_summary (pr : PullRequestSummary)
    (unresolved : List UnresolvedThreadView) : List Block :=
  headerBlocks pr ++ summaryBlocks pr unresolved ++ descriptionBlocks pr ++
    filesBlocks pr ++ discussionBlocks (sortedTimeline pr) ++
    unresolvedBlocks unresolved

/-- Python truthiness of `os.environ.get(...)`: `None` and the empty
string are falsy, any other string is truthy. -/
def pyTruthy : Option String → Bool
  | none => false
  | some s => !(s == "")

/-- Python `a or b` on two optional strings: the left operand when it is
truthy, otherwise the right operand. -/
def pyOr (a b : Option String) : Option String :=
  if pyTruthy a then a else b

/-- Python `str.strip()`: drop whitespace from both ends. -/
def pyStrip (s : String) : String :=
  ⟨((s.data.dropWhile Char.isWhitespace).reverse.dropWhile Char.isWhitespace).reverse⟩

/-- Embedding of `get_github_token`. Inputs: the values of the
`GITHUB_TOKEN` and `GH_TOKEN` environment variables and the outcome of
running `gh auth token` (its stdout on success, or a failure). The error
value is the message of the `ValueError` raised when no source yields a
token. -/
def get_github_token (github_token gh_token : Option String)
    (gh_cli : Except Unit String) : Except String String :=
  let token := pyOr github_token gh_token
  if pyTruthy token then Except.ok (token.getD "")
  else
    match gh_cli with
    | Except.ok out => Except.ok (pyStrip out)
    | Except.error _ =>
      Except.error
        "No GitHub token found. Please set GITHUB_TOKEN or GH_TOKEN environment variable, or authenticate with gh auth login"

end SummarizePR

namespace PrepareWorktree

/-- A configured git remote: its name and its URL. -/
structure Remote where
  name : String
  url : String
deriving DecidableEq

/-- Python substring membership `pat in s` on character lists. -/
def containsSub (pat : List Char) : List Char → Bool
  | [] => pat.isEmpty
  | c :: tl => pat.isPrefixOf (c :: tl) || containsSub pat tl

/-- The match test of `find_remote_for_repo`:
`f"{owner}/{repo_name}" in url or f":{owner}/{repo_name}" in url`. -/
def remoteMatches (owner repo_name url : String) : Bool :=
  containsSub (owner ++ "/" ++ repo_name).data url.data ||
    containsSub (":" ++ owner ++ "/" ++ repo_name).data url.data

/-- Embedding of `find_remote_for_repo`: the first remote in iteration
order whose URL passes the match test, or the `ValueError` message when
none does. -/
def find_remote_for_repo (remotes : List Remote) (owner repo_name : String) :
    Except String String :=
  match remotes with
  | [] => Except.error ("No remote found for " ++ owner ++ "/" ++ repo_name)
  | r :: rest =>
    if remoteMatches owner repo_name r.url then Except.ok r.name
    else find_remote_for_repo rest owner repo_name

/-- Modelled from the spec (for comparison with the code): a remote
matches when `owner/name` appears in the URL as a path segment (preceded
by a slash) or following a colon. -/
def specRemoteMatches (owner repo_name url : String) : Bool :=
  containsSub ("/" ++ owner ++ "/" ++ repo_name).data url.data ||
    containsSub (":" ++ owner ++ "/" ++ repo_name).data url.data

/-- The error raised by `prepare_worktree`, by raising call site. -/
inductive PrepError where
  | conflict
  | fetchFailed
  | addFailed
deriving DecidableEq

/-- A filesystem or git side effect performed by `prepare_worktree`. -/
inductive Action where
  | createReadme
  | removeWorktreeGit
  | rmtreeManual
  | pruneWorktrees
  | deleteBranch
  | fetchPR
  | addWorktree
deriving DecidableEq

/-- The state of the repository and environment that
`prepare_worktree` observes, as outcome flags for each external call it
makes. `worktreeDirty` is the result of
`is_dirty(untracked_files=True)`, so untracked files count as dirty;
`dirtyCheckSucceeds` is false when opening the worktree repository or the
dirty check itself raises. -/
structure WorktreeState where
  readmeExists : Bool
  worktreeExists : Bool
  dirtyCheckSucceeds : Bool
  worktreeDirty : Bool
  gitRemoveSucceeds : Bool
  localBranchExists : Bool
  fetchSucceeds : Bool
  addSucceeds : Bool
deriving DecidableEq

/-- The part of `prepare_worktree` after the existing worktree (if any)
has been handled: delete a pre-existing local branch, fetch the PR head
ref into a local branch, and create the worktree. -/
def afterRemoval (st : WorktreeState) (acts : List Action) :
    List Action × Option PrepError :=
  let acts := acts ++ (if st.localBranchExists then [Action.deleteBranch] else [])
  if st.fetchSucceeds then
    if st.addSucceeds then (acts ++ [Action.fetchPR, Action.addWorktree], none)
    else (acts ++ [Action.fetchPR], some PrepError.addFailed)
  else (acts, some PrepError.fetchFailed)

/-- Embedding of `prepare_worktree` from the notes-template step onward,
as the list of side effects performed and the error raised, if any. When
the target worktree exists and the dirty check succeeds and reports
uncommitted changes, the `ValueError` (whose message contains the phrase
`uncommitted changes`) is re-raised by the except clause; when the dirty
check itself fails the script continues with a warning. Removal tries the
native `git worktree remove --force` first and falls back to a recursive
delete plus prune. -/
def prepare_worktree (st : WorktreeState) : List Action × Option PrepError :=
  let acts := if st.readmeExists then [] else [Action.createReadme]
  if st.worktreeExists then
    if st.dirtyCheckSucceeds && st.worktreeDirty then (acts, some PrepError.conflict)
    else
      afterRemoval st
        (acts ++ (if st.gitRemoveSucceeds then [Action.removeWorktreeGit]
                  else [Action.rmtreeManual, Action.pruneWorktrees]))
  else afterRemoval st acts

end PrepareWorktree

namespace SummarizePR

/-- The pagination loop accumulates exactly the nodes of all pages of a
well formed page sequence, in page order. -/
theorem paginateLoop_eq_flatten {α : Type} (cur : Page α) (rest : List (Page α))
    (h : chainOk cur rest = true) :
    paginateLoop cur rest = ((cur :: rest).map Page.nodes).flatten := by
  induction rest generalizing cur with
  | nil => simp [paginateLoop, chainOk] at *
  | cons next rest ih =>
    rw [chainOk, Bool.and_eq_true] at h
    simp [paginateLoop, h.1, ih next h.2]

/-- Claim C1: for every sequence of API pages, `get_pr_data` returns a
summary in which each of the four paginated collections (files, general
comments, reviews, review threads) is exactly the concatenation, in page
order, of the nodes of all pages the API reports for that collection. -/
theorem c1_pagination_complete (api : APIResponse)
    (hf : chainOk api.files api.filesRest = true)
    (hc : chainOk api.comments api.commentsRest = true)
    (hr : chainOk api.reviews api.reviewsRest = true)
    (ht : chainOk api.reviewThreads api.reviewThreadsRest = true) :
    (get_pr_data api).1.files = ((api.files :: api.filesRest).map Page.nodes).flatten ∧
    (get_pr_data api).1.comments = ((api.comments :: api.commentsRest).map Page.nodes).flatten ∧
    (get_pr_data api).1.reviews = ((api.reviews :: api.reviewsRest).map Page.nodes).flatten ∧
    (get_pr_data api).1.reviewThreads =
      ((api.reviewThreads :: api.reviewThreadsRest).map Page.nodes).flatten := by
  exact ⟨paginateLoop_eq_flatten _ _ hf, paginateLoop_eq_flatten _ _ hc,
    paginateLoop_eq_flatten _ _ hr, paginateLoop_eq_flatten _ _ ht⟩

/-- A concrete API response with two pages of files and two pages of
reviews, used to instantiate the pagination theorem. -/
def apiTwoPages : APIResponse :=
  { title := "t"
    number := 7
    url := "https://example.org/pr/7"
    authorLogin := "alice"
    baseRefName := "main"
    headRefName := "feature"
    state := "OPEN"
    additions := 3
    deletions := 1
    changedFiles := 2
    body := "desc"
    files := ⟨[⟨"a.py", 1, 0⟩], true⟩
    filesRest := [⟨[⟨"b.py", 2, 1⟩], false⟩]
    comments := ⟨[⟨"c1", "bob", "hi", "2024-01-01T00:00:00Z"⟩], false⟩
    commentsRest := []
    reviews := ⟨[⟨"r1", "carol", "APPROVED", "lgtm", "2024-01-02T00:00:00Z"⟩], true⟩
    reviewsRest := [⟨[⟨"r2", "dan", "COMMENTED", "hm", "2024-01-03T00:00:00Z"⟩], false⟩]
    reviewThreads := ⟨[], false⟩
    reviewThreadsRest := [] }

/-- Witness for claim C1 at a concrete two-page API response. -/
theorem c1_pagination_complete_witness :
    (get_pr_data apiTwoPages).1.files =
      ((apiTwoPages.files :: apiTwoPages.filesRest).map Page.nodes).flatten ∧
    (get_pr_data apiTwoPages).1.comments =
      ((apiTwoPages.comments :: apiTwoPages.commentsRest).map Page.nodes).flatten ∧
    (get_pr_data apiTwoPages).1.reviews =
      ((apiTwoPages.reviews :: apiTwoPages.reviewsRest).map Page.nodes).flatten ∧
    (get_pr_data apiTwoPages).1.reviewThreads =
      ((apiTwoPages.reviewThreads :: apiTwoPages.reviewThreadsRest).map Page.nodes).flatten :=
  c1_pagination_complete apiTwoPages (by decide) (by decide) (by decide) (by decide)

/-- A concrete API response containing one review thread whose nested
comments connection reports a further page (a thread with more than 100
comments). -/
def apiBigThread : APIResponse :=
  { title := "t"
    number := 9
    url := "https://example.org/pr/9"
    authorLogin := "alice"
    baseRefName := "main"
    headRefName := "feature"
    state := "OPEN"
    additions := 0
    deletions := 0
    changedFiles := 0
    body := ""
    files := ⟨[], false⟩
    filesRest := []
    comments := ⟨[], false⟩
    commentsRest := []
    reviews := ⟨[], false⟩
    reviewsRest := []
    reviewThreads :=
      ⟨[⟨"T1", false, false, none,
         ⟨[⟨"tc1", 11, "bob", "look here", "", "a.py", some 3, "2024-01-01T00:00:00Z"⟩],
          true⟩⟩], false⟩
    reviewThreadsRest := [] }

/-- Claim C2 fails on the code: `get_pr_data` emits no warning even when a
fetched thread reports a further comments page, because it never calls
`paginate_comments`, the only function that prints the warning. At this
input the fetched thread has `hasNextPage` set and `paginate_comments`
would have warned, yet the warning list of the fetch is empty. -/
theorem c2_no_warning_emitted :
    (get_pr_data apiBigThread).2 = [] ∧
    (∃ t ∈ (get_pr_data apiBigThread).1.reviewThreads, t.comments.hasNextPage = true) ∧
    (∀ t ∈ (get_pr_data apiBigThread).1.reviewThreads,
      (paginate_comments t.comments).2 ≠ []) := by
  refine ⟨rfl, ?_, ?_⟩ <;> decide

/-- A placeholder thread comment for the total variant of the view
builder; it is never reached on inputs satisfying the invariant. -/
def dfltThreadComment : ThreadComment :=
  ⟨"", 0, "", "", "", "", none, ""⟩

/-- The view `extract_unresolved_threads` builds for a thread, as a total
function of the thread: the opening comment is the head of its comment
list. -/
def viewOfD (t : ReviewThread) : UnresolvedThreadView :=
  mkView t (t.comments.nodes.headD dfltThreadComment)

/-- Every thread list satisfying the at-least-one-comment invariant makes
`extract_unresolved_threads` succeed with the views of the unresolved
threads, in source order. -/
theorem extract_eq_of_invariant (threads : List ReviewThread)
    (h : ∀ t ∈ threads, t.comments.nodes ≠ []) :
    extract_unresolved_threads threads =
      some ((threads.filter (fun t => !t.isResolved)).map viewOfD) := by
  induction threads with
  | nil => rfl
  | cons t rest ih =>
    have hrest := ih (fun x hx => h x (List.mem_cons_of_mem _ hx))
    by_cases hres : t.isResolved
    · simp [extract_unresolved_threads, hres, List.filter_cons, hrest]
    · have ht := h t (List.mem_cons_self _ _)
      cases hn : t.comments.nodes with
      | nil => exact absurd hn ht
      | cons c cs =>
        simp [extract_unresolved_threads, hres, List.filter_cons, hrest,
          viewOfD, hn]

/-- Claim C4: under the at-least-one-comment invariant,
`extract_unresolved_threads` returns exactly the unresolved threads in
their original relative order, the output length equals the count of
unresolved threads, and every preview has at most 120 characters. -/
theorem c4_extract_unresolved (threads : List ReviewThread)
    (h : ∀ t ∈ threads, t.comments.nodes ≠ []) :
    extract_unresolved_threads threads =
      some ((threads.filter (fun t => !t.isResolved)).map viewOfD) ∧
    (∀ l, extract_unresolved_threads threads = some l →
      l.length = (threads.filter (fun t => !t.isResolved)).length ∧
      ∀ v ∈ l, v.preview.length ≤ 120) := by
  refine ⟨extract_eq_of_invariant threads h, ?_⟩
  intro l hl
  rw [extract_eq_of_invariant threads h] at hl
  cases hl
  constructor
  · simp
  · intro v hv
    rcases List.mem_map.mp hv with ⟨t, _, rfl⟩
    have hlen :
        (firstLinePreview ((t.comments.nodes.headD dfltThreadComment).body)).length ≤ 120 := by
      simp [firstLinePreview, String.length]
    simpa [viewOfD, mkView] using hlen

/-- A concrete thread list for the extraction witnesses: one resolved
thread and one unresolved thread with a two-line opening comment. -/
def threadsEx : List ReviewThread :=
  [⟨"T1", true, false, some "carol",
    ⟨[⟨"tc1", 1, "bob", "done", "", "a.py", some 1, "2024-01-01T00:00:00Z"⟩], false⟩⟩,
   ⟨"T2", false, true, none,
    ⟨[⟨"tc2", 2, "dan", "first line\nsecond line", "", "b.py", none, "2024-01-02T00:00:00Z"⟩],
     false⟩⟩]

/-- Witness for claim C4 at a concrete thread list. -/
theorem c4_extract_unresolved_witness :
    extract_unresolved_threads threadsEx =
      some ((threadsEx.filter (fun t => !t.isResolved)).map viewOfD) ∧
    (∀ l, extract_unresolved_threads threadsEx = some l →
      l.length = (threadsEx.filter (fun t => !t.isResolved)).length ∧
      ∀ v ∈ l, v.preview.length ≤ 120) :=
  c4_extract_unresolved threadsEx (by decide)

/-- Claim C9: under the invariant that every thread has at least one
comment, `extract_unresolved_threads` is total: the opening-comment access
never reaches the out-of-bounds branch. -/
theorem c9_extract_total (threads : List ReviewThread)
    (h : ∀ t ∈ threads, t.comments.nodes ≠ []) :
    (extract_unresolved_threads threads).isSome = true := by
  rw [extract_eq_of_invariant threads h]
  rfl

/-- Witness for claim C9 at a concrete thread list. -/
theorem c9_extract_total_witness :
    (extract_unresolved_threads
      [⟨"T2", false, true, none,
        ⟨[⟨"tc2", 2, "dan", "line", "", "b.py", none, "2024-01-02T00:00:00Z"⟩],
         false⟩⟩]).isSome = true :=
  c9_extract_total _ (by decide)

/-- The timestamp comparison used by the timeline sort is transitive. -/
theorem tsLe_trans (a b c : TimelineItem)
    (hab : tsLe a.timestamp b.timestamp) (hbc : tsLe b.timestamp c.timestamp) :
    tsLe a.timestamp c.timestamp := by
  simp only [tsLe, decide_eq_true_eq] at *
  exact le_trans hab hbc

/-- The timestamp comparison used by the timeline sort is total. -/
theorem tsLe_total (a b : TimelineItem) :
    tsLe a.timestamp b.timestamp || tsLe b.timestamp a.timestamp := by
  simp only [tsLe, Bool.or_eq_true, decide_eq_true_eq]
  exact le_total _ _

/-- Claim C5: the items of the Discussion and Reviews section appear in
non-decreasing timestamp order, where timestamps are compared as Python
strings, i.e. lexicographically by code point. -/
theorem c5_discussion_sorted (pr : PullRequestSummary) :
    (sortedTimeline pr).Pairwise
      (fun a b => a.timestamp.data ≤ b.timestamp.data) := by
  have h :=
    List.sorted_mergeSort tsLe_trans tsLe_total (timelineItems pr)
  exact h.imp (fun hb => by simpa [tsLe] using hb)

/-- Claim C6: the label of a rendered review is the fixed mapping on the
review state, and an unrecognized state is rendered as the raw state
string; the discussion renderer uses exactly this label in the header
line of a review item. -/
theorem c6_state_labels :
    stateLabel "APPROVED" = "✅ APPROVED" ∧
    stateLabel "CHANGES_REQUESTED" = "🔴 CHANGES REQUESTED" ∧
    stateLabel "COMMENTED" = "💬 COMMENTED" ∧
    stateLabel "DISMISSED" = "❌ DISMISSED" ∧
    stateLabel "PENDING" = "⏳ PENDING" ∧
    (∀ s : String,
      s ∉ (["APPROVED", "CHANGES_REQUESTED", "COMMENTED", "DISMISSED",
            "PENDING"] : List String) →
      stateLabel s = s) ∧
    (∀ (it : TimelineItem) (s : String), it.kind = ItemKind.review s →
      renderTimelineItem it =
        [Block.para ("@" ++ it.author ++ " (" ++ it.timestamp ++ ") - " ++
           stateLabel s ++ ":"),
         Block.raw it.body, Block.rule]) := by
  refine ⟨rfl, rfl, rfl, rfl, rfl, ?_, ?_⟩
  · intro s hs
    simp only [List.mem_cons, List.not_mem_nil, or_false, not_or] at hs
    obtain ⟨h1, h2, h3, h4, h5⟩ := hs
    simp [stateLabel, h1, h2, h3, h4, h5]
  · intro it s hk
    simp [renderTimelineItem, hk]

/-- Witness for claim C6: an unrecognized state is rendered raw, and a
concrete review item is rendered with its mapped label. -/
theorem c6_state_labels_witness :
    stateLabel "FOO" = "FOO" ∧
    renderTimelineItem
      ⟨ItemKind.review "APPROVED", "2024-01-01T00:00:00Z", "alice", "lgtm"⟩ =
      [Block.para ("@" ++ "alice" ++ " (" ++ "2024-01-01T00:00:00Z" ++ ") - " ++
         stateLabel "APPROVED" ++ ":"),
       Block.raw "lgtm", Block.rule] :=
  ⟨c6_state_labels.2.2.2.2.2.1 "FOO" (by decide),
   c6_state_labels.2.2.2.2.2.2
     ⟨ItemKind.review "APPROVED", "2024-01-01T00:00:00Z", "alice", "lgtm"⟩
     "APPROVED" rfl⟩

/-- The blocks of a rendered timeline item contain no heading. -/
theorem heading_not_mem_renderTimelineItem (it : TimelineItem) (l : Nat) (s : String) :
    Block.heading l s ∉ renderTimelineItem it := by
  cases hk : it.kind <;> simp [renderTimelineItem, hk]

/-- The blocks of one rendered thread comment contain no heading. -/
theorem heading_not_mem_threadCommentBlocks (idx : Nat) (c : ThreadComment)
    (l : Nat) (s : String) : Block.heading l s ∉ threadCommentBlocks idx c := by
  intro hmem
  simp only [threadCommentBlocks, List.mem_cons, List.mem_append] at hmem
  rcases hmem with h | h | h
  · simp at h
  · revert h; split <;> simp
  · simp at h

/-- The blocks of one rendered unresolved thread contain no level-2
heading. -/
theorem heading2_not_mem_unresolvedThreadBlocks (i : Nat)
    (t : UnresolvedThreadView) (s : String) :
    Block.heading 2 s ∉ unresolvedThreadBlocks i t := by
  intro hmem
  simp only [unresolvedThreadBlocks, List.mem_cons, List.mem_append,
    List.mem_flatMap] at hmem
  rcases hmem with h | h | h | ⟨p, _, hp⟩
  · simp at h
  · revert h; split <;> simp
  · simp at h
  · exact heading_not_mem_threadCommentBlocks p.1 p.2 2 s hp

/-- The Discussion and Reviews heading never occurs in the Unresolved
Review Comments section. -/
theorem headingDR_not_mem_unresolvedBlocks (u : List UnresolvedThreadView) :
    Block.heading 2 "Discussion & Reviews" ∉ unresolvedBlocks u := by
  intro hmem
  simp only [unresolvedBlocks, List.mem_cons] at hmem
  rcases hmem with h | h
  · exact absurd h (by decide)
  · revert h
    split
    · simp
    · simp only [List.mem_flatMap]
      rintro ⟨p, _, hp⟩
      exact heading2_not_mem_unresolvedThreadBlocks p.1 p.2 _ hp

/-- The Discussion and Reviews heading never occurs in the document
header. -/
theorem headingDR_not_mem_headerBlocks (pr : PullRequestSummary) :
    Block.heading 2 "Discussion & Reviews" ∉ headerBlocks pr := by
  simp [headerBlocks]

/-- The Discussion and Reviews heading never occurs in the Summary
section. -/
theorem headingDR_not_mem_summaryBlocks (pr : PullRequestSummary)
    (u : List UnresolvedThreadView) :
    Block.heading 2 "Discussion & Reviews" ∉ summaryBlocks pr u := by
  intro hmem
  simp only [summaryBlocks, List.mem_cons, List.not_mem_nil, or_false] at hmem
  rcases hmem with h | h
  · exact absurd h (by decide)
  · simp at h

/-- The Discussion and Reviews heading never occurs in the Description
section. -/
theorem headingDR_not_mem_descriptionBlocks (pr : PullRequestSummary) :
    Block.heading 2 "Discussion & Reviews" ∉ descriptionBlocks pr := by
  intro hmem
  revert hmem
  unfold descriptionBlocks
  split
  · simp
  · simp only [List.mem_cons, List.not_mem_nil, or_false]
    rintro (h | h)
    · exact absurd h (by decide)
    · simp at h

/-- The Discussion and Reviews heading never occurs in the Files Changed
section. -/
theorem headingDR_not_mem_filesBlocks (pr : PullRequestSummary) :
    Block.heading 2 "Discussion & Reviews" ∉ filesBlocks pr := by
  intro hmem
  simp only [filesBlocks, List.mem_cons] at hmem
  rcases hmem with h | h
  · exact absurd h (by decide)
  · revert h; split <;> simp

/-- The Discussion and Reviews heading occurs in the discussion section
exactly when the timeline is nonempty. -/
theorem headingDR_mem_discussionBlocks_iff (items : List TimelineItem) :
    Block.heading 2 "Discussion & Reviews" ∈ discussionBlocks items ↔
      items ≠ [] := by
  by_cases h : items = []
  · subst h; simp [discussionBlocks]
  · simp [discussionBlocks, h]

/-- The unsorted timeline is empty exactly when there are no general
comments and no review with a truthy body. -/
theorem timelineItems_eq_nil_iff (pr : PullRequestSummary) :
    timelineItems pr = [] ↔
      (pr.comments = [] ∧ ∀ r ∈ pr.reviews, r.body = "") := by
  simp [timelineItems]

/-- Sorting does not change emptiness of the timeline. -/
theorem sortedTimeline_eq_nil_iff (pr : PullRequestSummary) :
    sortedTimeline pr = [] ↔ timelineItems pr = [] := by
  rw [sortedTimeline, ← List.length_eq_zero, List.length_mergeSort,
    List.length_eq_zero]

/-- Claim C10: every general comment appears in the discussion timeline; a
review appears there exactly when its body is nonempty; and the Discussion
and Reviews heading is present in the rendered document exactly when some
general comment or some review with a nonempty body exists. -/
theorem c10_discussion_inclusion (pr : PullRequestSummary)
    (unresolved : List UnresolvedThreadView) :
    (∀ c ∈ pr.comments, commentItem c ∈ sortedTimeline pr) ∧
    (∀ r ∈ pr.reviews, (reviewItem r ∈ sortedTimeline pr ↔ r.body ≠ "")) ∧
    (Block.heading 2 "Discussion & Reviews" ∈
        generate_markdown_summary pr unresolved ↔
      (pr.comments ≠ [] ∨ ∃ r ∈ pr.reviews, r.body ≠ "")) := by
  refine ⟨?_, ?_, ?_⟩
  · intro c hc
    rw [sortedTimeline, List.mem_mergeSort, timelineItems]
    exact List.mem_append.mpr (Or.inl (List.mem_map_of_mem _ hc))
  · intro r hr
    rw [sortedTimeline, List.mem_mergeSort, timelineItems]
    constructor
    · intro hmem
      rcases List.mem_append.mp hmem with h | h
      · rcases List.mem_map.mp h with ⟨c, _, hc⟩
        simp [commentItem, reviewItem] at hc
      · rcases List.mem_map.mp h with ⟨r2, hr2, he⟩
        have hb2 := (List.mem_filter.mp hr2).2
        simp only [Bool.not_eq_eq_eq_not, Bool.not_true, beq_eq_false_iff_ne,
          ne_eq] at hb2
        have : r2.body = r.body := by
          simpa [reviewItem, TimelineItem.mk.injEq] using congrArg TimelineItem.body he
        rw [← this]
        exact hb2
    · intro hb
      refine List.mem_append.mpr (Or.inr (List.mem_map.mpr ⟨r, ?_, rfl⟩))
      exact List.mem_filter.mpr ⟨hr, by simpa using hb⟩
  · constructor
    · intro hmem
      rcases List.mem_append.mp hmem with h15 | h6
      · rcases List.mem_append.mp h15 with h14 | h5
        · rcases List.mem_append.mp h14 with h13 | h4
          · rcases List.mem_append.mp h13 with h12 | h3
            · rcases List.mem_append.mp h12 with h1 | h2
              · exact absurd h1 (headingDR_not_mem_headerBlocks pr)
              · exact absurd h2 (headingDR_not_mem_summaryBlocks pr unresolved)
            · exact absurd h3 (headingDR_not_mem_descriptionBlocks pr)
          · exact absurd h4 (headingDR_not_mem_filesBlocks pr)
        · have hne := (headingDR_mem_discussionBlocks_iff _).mp h5
          have hni : timelineItems pr ≠ [] := fun h0 =>
            hne ((sortedTimeline_eq_nil_iff pr).mpr h0)
          by_contra hcon
          push_neg at hcon
          exact hni ((timelineItems_eq_nil_iff pr).mpr hcon)
      · exact absurd h6 (headingDR_not_mem_unresolvedBlocks unresolved)
    · intro hrhs
      have hni : timelineItems pr ≠ [] := by
        intro h0
        rcases (timelineItems_eq_nil_iff pr).mp h0 with ⟨hc, hb⟩
        rcases hrhs with h | ⟨r, hr, hbne⟩
        · exact h hc
        · exact hbne (hb r hr)
      have hs : sortedTimeline pr ≠ [] := fun h0 =>
        hni ((sortedTimeline_eq_nil_iff pr).mp h0)
      have hd := (headingDR_mem_discussionBlocks_iff (sortedTimeline pr)).mpr hs
      exact List.mem_append.mpr (Or.inl (List.mem_append.mpr (Or.inr hd)))

/-- A concrete summary with one general comment and one review with an
empty body, used to instantiate the discussion-inclusion theorem. -/
def prEmptyBodyReview : PullRequestSummary :=
  { title := "t"
    number := 1
    url := "https://example.org/pr/1"
    authorLogin := "alice"
    baseRefName := "main"
    headRefName := "feature"
    state := "OPEN"
    additions := 0
    deletions := 0
    changedFiles := 0
    body := ""
    files := []
    comments := [⟨"c1", "bob", "hello", "2024-01-01T00:00:00Z"⟩]
    reviews := [⟨"r1", "carol", "APPROVED", "", "2024-01-02T00:00:00Z"⟩]
    reviewThreads := [] }

/-- Witness for claim C10: at a concrete summary the heading is present
(there is a general comment), and the empty-body review is excluded from
the timeline. -/
theorem c10_discussion_inclusion_witness :
    Block.heading 2 "Discussion & Reviews" ∈
      generate_markdown_summary prEmptyBodyReview [] ∧
    ¬reviewItem ⟨"r1", "carol", "APPROVED", "", "2024-01-02T00:00:00Z"⟩ ∈
      sortedTimeline prEmptyBodyReview :=
  ⟨(c10_discussion_inclusion prEmptyBodyReview []).2.2.mpr
     (Or.inl (by decide)),
   fun hmem =>
     (((c10_discussion_inclusion prEmptyBodyReview []).2.1 _
        (by decide)).mp hmem) rfl⟩

/-- Unfolding of `get_github_token` in terms of the truthiness of the
combined environment lookup. -/
theorem get_github_token_eq (g gh : Option String) (cli : Except Unit String) :
    get_github_token g gh cli =
      if pyTruthy (pyOr g gh) = true then Except.ok ((pyOr g gh).getD "")
      else
        match cli with
        | Except.ok out => Except.ok (pyStrip out)
        | Except.error _ =>
          Except.error
            "No GitHub token found. Please set GITHUB_TOKEN or GH_TOKEN environment variable, or authenticate with gh auth login" :=
  rfl

/-- Truthiness distributes over the Python `or` of two lookups. -/
theorem pyOr_truthy (a b : Option String) :
    pyTruthy (pyOr a b) = (pyTruthy a || pyTruthy b) := by
  rw [pyOr]
  by_cases h : pyTruthy a <;> simp [h]

/-- Claim C8: the token comes from `GITHUB_TOKEN`, or else from
`GH_TOKEN`, or else from the CLI token retrieval, and the function fails
exactly when neither environment variable is truthy and the CLI
invocation fails. -/
theorem c8_token_resolution (github_token gh_token : Option String)
    (gh_cli : Except Unit String) :
    (∀ t, github_token = some t → t ≠ "" →
      get_github_token github_token gh_token gh_cli = Except.ok t) ∧
    (pyTruthy github_token = false → ∀ t, gh_token = some t → t ≠ "" →
      get_github_token github_token gh_token gh_cli = Except.ok t) ∧
    (pyTruthy github_token = false → pyTruthy gh_token = false →
      ∀ out, gh_cli = Except.ok out →
      get_github_token github_token gh_token gh_cli = Except.ok (pyStrip out)) ∧
    ((∃ e, get_github_token github_token gh_token gh_cli = Except.error e) ↔
      (pyTruthy github_token = false ∧ pyTruthy gh_token = false ∧
        gh_cli = Except.error ())) := by
  refine ⟨?_, ?_, ?_, ?_⟩
  · rintro t rfl ht
    have htr : pyTruthy (some t) = true := by simp [pyTruthy, ht]
    rw [get_github_token_eq]
    simp [pyOr, htr]
  · rintro hg t rfl ht
    have htr : pyTruthy (some t) = true := by simp [pyTruthy, ht]
    rw [get_github_token_eq]
    simp [pyOr, hg, htr]
  · rintro hg hgh out rfl
    rw [get_github_token_eq, pyOr_truthy, hg, hgh]
    rfl
  · rw [get_github_token_eq]
    constructor
    · rintro ⟨e, he⟩
      have h : pyTruthy (pyOr github_token gh_token) = false := by
        by_contra hc
        rw [Bool.not_eq_false] at hc
        rw [hc] at he
        simp at he
      rw [h] at he
      simp only [Bool.false_eq_true, if_false] at he
      rw [pyOr_truthy] at h
      rcases Bool.or_eq_false_iff.mp h with ⟨h1, h2⟩
      refine ⟨h1, h2, ?_⟩
      cases gh_cli with
      | ok out => simp at he
      | error u => cases u; rfl
    · rintro ⟨hg, hgh, rfl⟩
      rw [pyOr_truthy, hg, hgh]
      exact ⟨_, rfl⟩

/-- Witness for claim C8: with an empty `GITHUB_TOKEN`, a set `GH_TOKEN`
and a failing CLI, the `GH_TOKEN` value is returned. -/
theorem c8_token_resolution_witness :
    get_github_token (some "") (some "tok") (Except.error ()) =
      Except.ok "tok" :=
  (c8_token_resolution (some "") (some "tok") (Except.error ())).2.1
    (by decide) "tok" rfl (by decide)

end SummarizePR

namespace PrepareWorktree

/-- A pattern that is a prefix of a list occurs in it as a substring. -/
theorem containsSub_of_leading {pat l : List Char} (h : pat <+: l) :
    containsSub pat l = true := by
  cases l with
  | nil =>
    rcases h with ⟨t, ht⟩
    rcases List.append_eq_nil.mp ht with ⟨hp, -⟩
    simp [containsSub, hp]
  | cons a tl =>
    rw [containsSub, Bool.or_eq_true]
    exact Or.inl ( List.isPrefixOf_iff_prefix.mpr h)

/-- Dropping the first character of the pattern preserves substring
occurrence: an occurrence of `c :: pat` contains an occurrence of
`pat`. -/
theorem containsSub_cons_subsumed {c : Char} {pat l : List Char}
    (h : containsSub (c :: pat) l = true) : containsSub pat l = true := by
  induction l with
  | nil => simp [containsSub] at h
  | cons a tl ih =>
    rw [containsSub, Bool.or_eq_true] at h
    rcases h with h | h
    · rcases List.cons_prefix_cons.mp ( List.isPrefixOf_iff_prefix.mp h) with ⟨-, hp⟩
      rw [containsSub, Bool.or_eq_true]
      exact Or.inr (containsSub_of_leading hp)
    · rw [containsSub, Bool.or_eq_true]
      exact Or.inr (ih h)

/-- The colon-prefixed disjunct of the match test is subsumed by the plain
substring test: the test is equivalent to substring occurrence of
`owner/name` at any position. -/
theorem remoteMatches_eq_substring (owner repo_name url : String) :
    remoteMatches owner repo_name url =
      containsSub (owner ++ "/" ++ repo_name).data url.data := by
  rw [remoteMatches]
  cases hc : containsSub (":" ++ owner ++ "/" ++ repo_name).data url.data with
  | false => rw [Bool.or_false]
  | true =>
    have hdata : (":" ++ owner ++ "/" ++ repo_name).data =
        ':' :: (owner ++ "/" ++ repo_name).data := by
      simp [String.data_append]
    have hsub : containsSub (owner ++ "/" ++ repo_name).data url.data = true := by
      have hc2 : containsSub (':' :: (owner ++ "/" ++ repo_name).data) url.data = true := by
        rw [← hdata]
        exact hc
      exact containsSub_cons_subsumed hc2
    rw [hsub, Bool.true_or]

/-- Claim C3 fails on the code: with owner `o` and name `n`, the URL
`xo/ny` contains `o/n` neither as a path segment nor after a colon, yet
`find_remote_for_repo` matches it, because the code checks plain substring
containment. -/
theorem c3_substring_counterexample :
    find_remote_for_repo [⟨"origin", "xo/ny"⟩] "o" "n" = Except.ok "origin" ∧
    specRemoteMatches "o" "n" "xo/ny" = false :=
  ⟨rfl, by decide⟩

/-- Claim C3 as amended: `find_remote_for_repo` returns the name of the
first remote in iteration order whose URL contains `owner/name` as a
substring at any position (the colon-prefixed disjunct is subsumed by the
plain substring test), and fails with the not-found error when no remote
URL contains the pattern. -/
theorem c3_first_substring_match (remotes : List Remote)
    (owner repo_name : String) :
    ((∀ r ∈ remotes, remoteMatches owner repo_name r.url = false) →
      find_remote_for_repo remotes owner repo_name =
        Except.error ("No remote found for " ++ owner ++ "/" ++ repo_name)) ∧
    (∀ pre r post, remotes = pre ++ r :: post →
      (∀ r2 ∈ pre, remoteMatches owner repo_name r2.url = false) →
      remoteMatches owner repo_name r.url = true →
      find_remote_for_repo remotes owner repo_name = Except.ok r.name) ∧
    (∀ url, remoteMatches owner repo_name url =
      containsSub (owner ++ "/" ++ repo_name).data url.data) := by
  refine ⟨?_, ?_, fun url => remoteMatches_eq_substring owner repo_name url⟩
  · intro h
    induction remotes with
    | nil => rfl
    | cons r rest ih =>
      have hr := h r (List.mem_cons_self _ _)
      rw [find_remote_for_repo, hr]
      simp only [Bool.false_eq_true, if_false]
      exact ih (fun r2 h2 => h r2 (List.mem_cons_of_mem _ h2))
  · intro pre r post heq hpre hmatch
    subst heq
    induction pre with
    | nil =>
      rw [List.nil_append, find_remote_for_repo, hmatch, if_pos rfl]
    | cons p pre ih =>
      have hp := hpre p (List.mem_cons_self _ _)
      rw [List.cons_append, find_remote_for_repo, hp]
      simp only [Bool.false_eq_true, if_false]
      exact ih (fun r2 h2 => hpre r2 (List.mem_cons_of_mem _ h2))

/-- Witness for the amended claim C3: the second remote is the first
substring match and is returned; with no matching remote the not-found
error is produced. -/
theorem c3_first_substring_match_witness :
    find_remote_for_repo
      [⟨"upstream", "https://example.org/x/y"⟩,
       ⟨"origin", "git@github.com:o/n.git"⟩] "o" "n" = Except.ok "origin" ∧
    find_remote_for_repo [⟨"origin", "https://example.org/x/y"⟩] "o" "n" =
      Except.error ("No remote found for " ++ "o" ++ "/" ++ "n") :=
  ⟨(c3_first_substring_match
      [⟨"upstream", "https://example.org/x/y"⟩,
       ⟨"origin", "git@github.com:o/n.git"⟩] "o" "n").2.1
      [⟨"upstream", "https://example.org/x/y"⟩]
      ⟨"origin", "git@github.com:o/n.git"⟩ [] rfl (by decide) (by decide),
   (c3_first_substring_match
      [⟨"origin", "https://example.org/x/y"⟩] "o" "n").1 (by decide)⟩

/-- Claim C7: when the target worktree exists and the dirty check reports
uncommitted changes, `prepare_worktree` raises the conflict error and
performs no removal; when the existing worktree is clean (and the
subsequent fetch and worktree creation succeed), it is removed and
recreated without error. -/
theorem c7_worktree_conflict_guard (st : WorktreeState) :
    (st.worktreeExists = true → st.dirtyCheckSucceeds = true →
      st.worktreeDirty = true →
      (prepare_worktree st).2 = some PrepError.conflict ∧
      Action.removeWorktreeGit ∉ (prepare_worktree st).1 ∧
      Action.rmtreeManual ∉ (prepare_worktree st).1) ∧
    (st.worktreeExists = true → st.dirtyCheckSucceeds = true →
      st.worktreeDirty = false → st.fetchSucceeds = true →
      st.addSucceeds = true →
      (prepare_worktree st).2 = none ∧
      (Action.removeWorktreeGit ∈ (prepare_worktree st).1 ∨
        Action.rmtreeManual ∈ (prepare_worktree st).1) ∧
      Action.addWorktree ∈ (prepare_worktree st).1) := by
  constructor
  · intro h1 h2 h3
    by_cases hr : st.readmeExists = true <;>
      simp [prepare_worktree, h1, h2, h3, hr]
  · intro h1 h2 h3 h4 h5
    by_cases hr : st.readmeExists = true <;>
      by_cases hg : st.gitRemoveSucceeds = true <;>
        by_cases hb : st.localBranchExists = true <;>
          simp [prepare_worktree, afterRemoval, h1, h2, h3, h4, h5, hr, hg, hb]

/-- A dirty existing worktree for the conflict half of the worktree
witness. -/
def stDirty : WorktreeState :=
  { readmeExists := true
    worktreeExists := true
    dirtyCheckSucceeds := true
    worktreeDirty := true
    gitRemoveSucceeds := true
    localBranchExists := false
    fetchSucceeds := true
    addSucceeds := true }

/-- A clean existing worktree for the recreation half of the worktree
witness. -/
def stClean : WorktreeState :=
  { readmeExists := true
    worktreeExists := true
    dirtyCheckSucceeds := true
    worktreeDirty := false
    gitRemoveSucceeds := true
    localBranchExists := false
    fetchSucceeds := true
    addSucceeds := true }

/-- Witness for claim C7 at a dirty and at a clean concrete state. -/
theorem c7_worktree_conflict_guard_witness :
    ((prepare_worktree stDirty).2 = some PrepError.conflict ∧
      Action.removeWorktreeGit ∉ (prepare_worktree stDirty).1 ∧
      Action.rmtreeManual ∉ (prepare_worktree stDirty).1) ∧
    ((prepare_worktree stClean).2 = none ∧
      (Action.removeWorktreeGit ∈ (prepare_worktree stClean).1 ∨
        Action.rmtreeManual ∈ (prepare_worktree stClean).1) ∧
      Action.addWorktree ∈ (prepare_worktree stClean).1) :=
  ⟨(c7_worktree_conflict_guard stDirty).1 rfl rfl rfl,
   (c7_worktree_conflict_guard stClean).2 rfl rfl rfl rfl rfl⟩

end PrepareWorktree
